import Mathlib

/-!
Verification of the Cournot pure-strategy Nash equilibrium solver (proj.py).

The program builds two 21x21 payoff tables for a two-firm Cournot game with
inverse demand 30 - q1 - q2 and common marginal cost c, scans all quantity
pairs for mutual best responses, and prints a report block for every integer
cost c from 0 to 30.

All numeric values arising in the program are integers of magnitude at most
1200, hence exactly representable in the program's float64 tables; the
embedding therefore uses `Int` arithmetic, which is exact on this range.
The payoff tables are embedded as total functions `Nat → Nat → Int`
(each entry of the 21x21 array is written exactly once by the fill loop, so
the array equals the pointwise function of its indices), and separately as
concrete `List (List Int)` tables with `Option`-checked accesses, used to
show that every array access of the sweep is in bounds.
-/

set_option maxRecDepth 100000

/-- `arr.max()` of numpy on a (nonempty) 1-D array: maximum of the entries.
The `[]` branch is a default that never arises (columns have 21 entries). -/
def listMax : List Int → Int
  | [] => 0
  | a :: l => l.foldl max a

/-- `arr.max()` in the checked model: numpy raises on an empty array, which is
modelled as `none`. -/
def listMax? : List Int → Option Int
  | [] => none
  | a :: l => some (l.foldl max a)

/-- Embeds `PayoffMatrices(c)` (proj.py lines 46-56).  The fill loop writes
`A[q1, q2] = ((30 - q1 - q2) * q1) - (c * q1)` and
`B[q2, q1] = ((30 - q1 - q2) * q2) - (c * q2)` for every `(q1, q2)` in the
21x21 grid; each component below is the written entry as a function of its
own two indices (first component of the pair is `A`, second is `B`). -/
def PayoffMatrices (c : Int) : (Nat → Nat → Int) × (Nat → Nat → Int) :=
  (fun q1 q2 => ((30 - (q1 : Int) - (q2 : Int)) * q1) - c * q1,
   fun q2 q1 => ((30 - (q1 : Int) - (q2 : Int)) * q2) - c * q2)

/-- `M[:, j].max()` for a 21-row matrix: maximum of column `j`. -/
def colMax (M : Nat → Nat → Int) (j : Nat) : Int :=
  listMax ((List.range 21).map fun i => M i j)

/-- `firm1_best_response = A[q1, q2] >= A[:, q2].max()` (proj.py line 84). -/
def firm1_best_response (A : Nat → Nat → Int) (q1 q2 : Nat) : Bool :=
  decide (A q1 q2 ≥ colMax A q2)

/-- `firm2_best_response = B[q2, q1] >= B[:, q1].max()` (proj.py line 87). -/
def firm2_best_response (B : Nat → Nat → Int) (q1 q2 : Nat) : Bool :=
  decide (B q2 q1 ≥ colMax B q1)

/-- The iteration order of the double loop `for q1 in range(n): for q2 in
range(n)`: all pairs, `q1` outer, `q2` inner. -/
def gridPairs (n : Nat) : List (Nat × Nat) :=
  (List.range n).flatMap fun q1 => (List.range n).map fun q2 => (q1, q2)

/-- The `equilibria` list built by `NashEquilibrium` (proj.py lines 77-90):
the pairs of the 21x21 grid, in loop order, whose two best-response checks
both succeed. -/
def equilibria (A B : Nat → Nat → Int) : List (Nat × Nat) :=
  (gridPairs 21).filter fun p => firm1_best_response A p.1 p.2 && firm2_best_response B p.1 p.2

/-- The equilibrium line printed for a pair (proj.py lines 94-96). -/
def eqLine (c : Int) (q1 q2 : Nat) : String :=
  "For marginal cost c = " ++ toString c ++ ", the strategy profile (q1=" ++
    toString q1 ++ ", q2=" ++ toString q2 ++ ") is a Nash equilibrium."

/-- The absence line printed when no equilibrium was found (proj.py line 98). -/
def noEqLine (c : Int) : String :=
  "For marginal cost c = " ++ toString c ++ ", no pure strategy Nash equilibrium exists."

/-- The lines printed by `NashEquilibrium(A, B, c)` (proj.py lines 92-98):
one line per equilibrium pair when the list is non-empty, otherwise the
single absence line. -/
def NashEquilibrium (A B : Nat → Nat → Int) (c : Int) : List String :=
  let eqs := equilibria A B
  if eqs.isEmpty then [noEqLine c] else eqs.map fun p => eqLine c p.1 p.2

/-- `"-" * 30` (proj.py line 104). -/
def dashLine : String := String.mk (List.replicate 30 '-')

/-- `"=" * 30` (proj.py line 108). -/
def sepLine : String := String.mk (List.replicate 30 '=')

/-- The full standard output of `main()` (proj.py lines 101-109), modelled as
the list of printed lines accumulated sequentially over the sweep
`for c in range(31)`. -/
def mainLines : List String :=
  (List.range 31).foldl
    (fun out c =>
      out ++ ("Marginal cost c = " ++ toString c) :: dashLine ::
        (NashEquilibrium (PayoffMatrices (c : Int)).1 (PayoffMatrices (c : Int)).2 (c : Int) ++
          ["", sepLine, ""]))
    []

/-! ### Evaluation helpers and checked-access model -/

/-- Column-maximum table: entry `j` is `M[:, j].max()`.  Used only to speed up
concrete evaluation of `equilibria`; proved equal to it below. -/
def colMaxTable (M : Nat → Nat → Int) : List Int :=
  (List.range 21).map fun j => colMax M j

/-- `equilibria` with the column maxima precomputed once per column instead of
once per candidate pair.  Extensionally equal to `equilibria`
(`equilibriaFast_eq`); exists only to make concrete evaluation cheap. -/
def equilibriaFast (A B : Nat → Nat → Int) : List (Nat × Nat) :=
  (gridPairs 21).filter fun p =>
    decide (A p.1 p.2 ≥ (colMaxTable A).getD p.2 0) &&
      decide (B p.2 p.1 ≥ (colMaxTable B).getD p.1 0)

/-- The loop enumeration order is lexicographic: `q1` outer, `q2` inner. -/
def lexLt (p q : Nat × Nat) : Prop :=
  p.1 < q.1 ∨ (p.1 = q.1 ∧ p.2 < q.2)

instance (p q : Nat × Nat) : Decidable (lexLt p q) :=
  inferInstanceAs (Decidable (p.1 < q.1 ∨ (p.1 = q.1 ∧ p.2 < q.2)))

/-- Boolean check that adjacent elements of a list are in strict lexicographic
order. -/
def sortedLex : List (Nat × Nat) → Bool
  | [] => true
  | [_] => true
  | p :: q :: l => decide (lexLt p q) && sortedLex (q :: l)

/-- The payoff tables as concrete 21x21 row-major arrays, as `np.zeros((21,21))`
filled by the loop of `PayoffMatrices`: row `q1` of `A` holds `A[q1, q2]` for
`q2` in 0..20, and row `q2` of `B` holds `B[q2, q1]` for `q1` in 0..20. -/
def PayoffMatricesL (c : Int) : List (List Int) × List (List Int) :=
  ((List.range 21).map fun (q1 : Nat) => (List.range 21).map fun (q2 : Nat) =>
      ((30 - (q1 : Int) - (q2 : Int)) * q1) - c * q1,
   (List.range 21).map fun (q2 : Nat) => (List.range 21).map fun (q1 : Nat) =>
      ((30 - (q1 : Int) - (q2 : Int)) * q2) - c * q2)

/-- Checked array access `M[i, j]`: `none` on an out-of-bounds index. -/
def get2? (M : List (List Int)) (i j : Nat) : Option Int :=
  (M.get? i).bind fun row => row.get? j

/-- Checked `M[:, j].max()`: reads the full column (all `len(M)` rows) at
index `j` and takes the maximum; `none` if any access is out of bounds or the
column is empty. -/
def colMax2? (M : List (List Int)) (j : Nat) : Option Int :=
  ((List.range M.length).mapM fun i => get2? M i j).bind listMax?

/-- Checked best-response test of one candidate pair: the four array reads of
the loop body, then the two comparisons. -/
def pairCheck? (A B : List (List Int)) (q1 q2 : Nat) : Option Bool := do
  let a ← get2? A q1 q2
  let ma ← colMax2? A q2
  let b ← get2? B q2 q1
  let mb ← colMax2? B q1
  pure (decide (a ≥ ma) && decide (b ≥ mb))

/-- Checked equilibrium scan: the double loop over `range(n) x range(n)` with
`n = A.shape[0]`, failing if any array access fails. -/
def equilibriaChecked (A B : List (List Int)) : Option (List (Nat × Nat)) :=
  (gridPairs A.length).foldlM
    (fun acc p => do
      let ok ← pairCheck? A B p.1 p.2
      pure (if ok then acc ++ [p] else acc))
    []

/-! ### Theorems -/

theorem le_foldl_max (l : List Int) (a : Int) : a ≤ l.foldl max a := by
  induction l generalizing a with
  | nil => exact le_refl a
  | cons b l ih => exact le_trans (le_max_left a b) (ih (max a b))

theorem mem_le_foldl_max (l : List Int) (a x : Int) (hx : x ∈ l) : x ≤ l.foldl max a := by
  induction l generalizing a with
  | nil => cases hx
  | cons b l ih =>
      rcases List.mem_cons.mp hx with h | h
      · subst h
        exact le_trans (le_max_right a x) (le_foldl_max l (max a x))
      · exact ih (max a b) h

theorem le_listMax (l : List Int) (x : Int) (hx : x ∈ l) : x ≤ listMax l := by
  cases l with
  | nil => cases hx
  | cons a l =>
      rcases List.mem_cons.mp hx with h | h
      · subst h; exact le_foldl_max l x
      · exact mem_le_foldl_max l a x h

theorem entry_le_colMax (M : Nat → Nat → Int) (i j : Nat) (hi : i < 21) :
    M i j ≤ colMax M j := by
  apply le_listMax
  exact List.mem_map.mpr ⟨i, List.mem_range.mpr hi, rfl⟩

theorem mem_gridPairs {n : Nat} {p : Nat × Nat} :
    p ∈ gridPairs n ↔ p.1 < n ∧ p.2 < n := by
  obtain ⟨a, b⟩ := p
  simp [gridPairs, List.mem_flatMap, List.mem_map, List.mem_range]

theorem mem_equilibria {A B : Nat → Nat → Int} {q1 q2 : Nat} :
    (q1, q2) ∈ equilibria A B ↔
      q1 < 21 ∧ q2 < 21 ∧ colMax A q2 ≤ A q1 q2 ∧ colMax B q1 ≤ B q2 q1 := by
  unfold equilibria firm1_best_response firm2_best_response
  rw [List.mem_filter, mem_gridPairs]
  simp [ge_iff_le, and_assoc]

theorem colMaxTable_getD (M : Nat → Nat → Int) (j : Nat) (hj : j < 21) :
    (colMaxTable M).getD j 0 = colMax M j := by
  unfold colMaxTable
  rw [List.getD_eq_getElem?_getD, List.getElem?_map, List.getElem?_range hj]
  rfl

theorem equilibriaFast_eq (A B : Nat → Nat → Int) : equilibriaFast A B = equilibria A B := by
  unfold equilibriaFast equilibria
  apply List.filter_congr
  intro p hp
  rw [mem_gridPairs] at hp
  rw [colMaxTable_getD A p.2 hp.2, colMaxTable_getD B p.1 hp.1]
  rfl

theorem lexLt_trans {a b c : Nat × Nat} (hab : lexLt a b) (hbc : lexLt b c) : lexLt a c := by
  unfold lexLt at *
  omega

theorem pairwise_of_sortedLex :
    ∀ l : List (Nat × Nat), sortedLex l = true → List.Pairwise lexLt l := by
  intro l
  induction l with
  | nil => intro _; exact List.Pairwise.nil
  | cons p l ih =>
      cases l with
      | nil => intro _; exact List.pairwise_singleton lexLt p
      | cons q l2 =>
          intro h
          rw [sortedLex, Bool.and_eq_true, decide_eq_true_iff] at h
          have hp := ih h.2
          refine List.Pairwise.cons ?_ hp
          intro x hx
          rcases List.mem_cons.mp hx with rfl | hx2
          · exact h.1
          · exact lexLt_trans h.1 ((List.pairwise_cons.mp hp).1 x hx2)

theorem pairwise_gridPairs : List.Pairwise lexLt (gridPairs 21) :=
  pairwise_of_sortedLex (gridPairs 21) (by decide)

/-! ### Claim theorems -/

/-- Claim C1: for every c in [0,30] and every pair (q1,q2) in the 21x21 grid,
the matrices returned by `PayoffMatrices c` satisfy
A[q1,q2] = (30-q1-q2)*q1 - c*q1 and B[q2,q1] = (30-q1-q2)*q2 - c*q2 exactly. -/
theorem payoff_matrices_formula (c : Int) (_hc0 : 0 ≤ c) (_hc30 : c ≤ 30)
    (q1 q2 : Nat) (_hq1 : q1 ≤ 20) (_hq2 : q2 ≤ 20) :
    (PayoffMatrices c).1 q1 q2 = (30 - (q1 : Int) - (q2 : Int)) * q1 - c * q1 ∧
    (PayoffMatrices c).2 q2 q1 = (30 - (q1 : Int) - (q2 : Int)) * q2 - c * q2 :=
  ⟨rfl, rfl⟩

/-- Witness for C1 at c = 7, q1 = 3, q2 = 5. -/
theorem payoff_matrices_formula_witness :
    (0 : Int) ≤ 7 ∧ (7 : Int) ≤ 30 ∧ (3 : Nat) ≤ 20 ∧ (5 : Nat) ≤ 20 ∧
      ((PayoffMatrices 7).1 3 5 = (30 - (3 : Int) - (5 : Int)) * 3 - 7 * 3 ∧
       (PayoffMatrices 7).2 5 3 = (30 - (3 : Int) - (5 : Int)) * 5 - 7 * 5) :=
  ⟨by decide, by decide, by decide, by decide,
   payoff_matrices_formula 7 (by decide) (by decide) 3 5 (by decide) (by decide)⟩

/-- Claim C10: for every c, the two matrices returned by `PayoffMatrices c`
are entrywise equal: A[i,j] = B[i,j] for all i, j in [0,20]. -/
theorem payoff_matrices_entrywise_equal (c : Int) (i j : Nat) (_hi : i ≤ 20) (_hj : j ≤ 20) :
    (PayoffMatrices c).1 i j = (PayoffMatrices c).2 i j := by
  show ((30 - (i : Int) - (j : Int)) * i) - c * i = ((30 - (j : Int) - (i : Int)) * i) - c * i
  ring

/-- Witness for C10 at c = 4, i = 2, j = 9. -/
theorem payoff_matrices_entrywise_equal_witness :
    (2 : Nat) ≤ 20 ∧ (9 : Nat) ≤ 20 ∧ (PayoffMatrices 4).1 2 9 = (PayoffMatrices 4).2 2 9 :=
  ⟨by decide, by decide, payoff_matrices_entrywise_equal 4 2 9 (by decide) (by decide)⟩

/-- Claim C7: for every (A, B, c), `NashEquilibrium` (a total function, hence
always terminating) produces exactly one of two output shapes: one line per
equilibrium pair when the equilibrium list is non-empty, or exactly the single
absence line when it is empty — never both and never neither. -/
theorem nash_equilibrium_output_shape (A B : Nat → Nat → Int) (c : Int) :
    (equilibria A B = [] ∧ NashEquilibrium A B c = [noEqLine c]) ∨
    (equilibria A B ≠ [] ∧
      NashEquilibrium A B c = (equilibria A B).map fun p => eqLine c p.1 p.2) := by
  by_cases h : equilibria A B = []
  · left
    refine ⟨h, ?_⟩
    simp [NashEquilibrium, h]
  · right
    refine ⟨h, ?_⟩
    simp [NashEquilibrium, List.isEmpty_iff, h]

theorem foldl_append_eq_flatMap {α β : Type} (g : α → List β) :
    ∀ (l : List α) (acc : List β),
      l.foldl (fun out c => out ++ g c) acc = acc ++ l.flatMap g := by
  intro l
  induction l with
  | nil => intro acc; simp
  | cons a l ih => intro acc; simp [List.foldl_cons, ih, List.flatMap_cons, List.append_assoc]

/-- Claim C8: the entry point sweeps every integer c from 0 to 30 inclusive
(the 31 elements of `List.range 31`) and for each c prints exactly the
six-part block: the cost header line, a line of 30 dashes, the lines of
`NashEquilibrium` (equilibrium lines or the single absence line), a blank
line, a line of 30 equality signs, and a blank line. -/
theorem main_output_blocks :
    mainLines = (List.range 31).flatMap fun c =>
      ("Marginal cost c = " ++ toString c) :: dashLine ::
        (NashEquilibrium (PayoffMatrices (c : Int)).1 (PayoffMatrices (c : Int)).2 (c : Int) ++
          ["", sepLine, ""]) := by
  have h := foldl_append_eq_flatMap
    (fun c => ("Marginal cost c = " ++ toString c) :: dashLine ::
      (NashEquilibrium (PayoffMatrices (c : Int)).1 (PayoffMatrices (c : Int)).2 (c : Int) ++
        ["", sepLine, ""]))
    (List.range 31) []
  simpa [mainLines] using h

/-- Claim C2: for every pair of 21x21 matrices, the sequence of pairs the
`NashEquilibrium` scan collects is exactly the set of pairs (q1,q2) with
A[q1,q2] equal to the maximum of column q2 of A and B[q2,q1] equal to the
maximum of column q1 of B (ties allowed: any maximizer counts), enumerated in
lexicographic order by (q1,q2), q1 outer and q2 inner. -/
theorem equilibria_characterization (A B : Nat → Nat → Int) :
    (∀ q1 q2 : Nat, (q1, q2) ∈ equilibria A B ↔
        q1 < 21 ∧ q2 < 21 ∧ A q1 q2 = colMax A q2 ∧ B q2 q1 = colMax B q1) ∧
    List.Pairwise lexLt (equilibria A B) := by
  constructor
  · intro q1 q2
    rw [mem_equilibria]
    constructor
    · rintro ⟨h1, h2, h3, h4⟩
      exact ⟨h1, h2, le_antisymm (entry_le_colMax A q1 q2 h1) h3,
        le_antisymm (entry_le_colMax B q2 q1 h2) h4⟩
    · rintro ⟨h1, h2, h3, h4⟩
      exact ⟨h1, h2, h3.ge, h4.ge⟩
  · exact List.Pairwise.sublist (List.filter_sublist _) pairwise_gridPairs

/-- Claim C3: for every c in [0,30], the equilibrium set computed on
`PayoffMatrices c` is symmetric under swapping the two firms. -/
theorem equilibria_symmetric (c : Int) (_hc0 : 0 ≤ c) (_hc30 : c ≤ 30) (q1 q2 : Nat)
    (h : (q1, q2) ∈ equilibria (PayoffMatrices c).1 (PayoffMatrices c).2) :
    (q2, q1) ∈ equilibria (PayoffMatrices c).1 (PayoffMatrices c).2 := by
  have hBA : (PayoffMatrices c).2 = (PayoffMatrices c).1 := by
    funext i j
    show ((30 - (j : Int) - (i : Int)) * i) - c * i = ((30 - (i : Int) - (j : Int)) * i) - c * i
    ring
  rw [hBA, mem_equilibria] at h
  rw [hBA, mem_equilibria]
  tauto

/-- Witness for C3 at c = 0 with the equilibrium (9, 11). -/
theorem equilibria_symmetric_witness :
    (0 : Int) ≤ 0 ∧ (0 : Int) ≤ 30 ∧
      (9, 11) ∈ equilibria (PayoffMatrices 0).1 (PayoffMatrices 0).2 ∧
      (11, 9) ∈ equilibria (PayoffMatrices 0).1 (PayoffMatrices 0).2 :=
  ⟨by decide, by decide,
   by rw [← equilibriaFast_eq]; decide,
   equilibria_symmetric 0 (by decide) (by decide) 9 11 (by rw [← equilibriaFast_eq]; decide)⟩

/-- Claim C5: for c = 30 the computed equilibrium set is exactly [(0, 0)]. -/
theorem equilibria_at_cost_thirty :
    equilibria (PayoffMatrices 30).1 (PayoffMatrices 30).2 = [(0, 0)] := by
  rw [← equilibriaFast_eq]
  decide

/-- Claim C6: for c = 0 the computed equilibrium set contains (10, 10) and has
strictly more than one element. -/
theorem equilibria_at_cost_zero :
    (10, 10) ∈ equilibria (PayoffMatrices 0).1 (PayoffMatrices 0).2 ∧
      1 < (equilibria (PayoffMatrices 0).1 (PayoffMatrices 0).2).length := by
  rw [← equilibriaFast_eq]
  decide

set_option maxHeartbeats 4000000 in
theorem equilibria_length_fast : ∀ m : Nat, m < 31 →
    (equilibriaFast (PayoffMatrices (m : Int)).1 (PayoffMatrices (m : Int)).2).length =
      if m = 30 then 1 else 3 := by decide

theorem equilibria_length_at (m : Nat) (hm : m < 31) :
    (equilibria (PayoffMatrices (m : Int)).1 (PayoffMatrices (m : Int)).2).length =
      if m = 30 then 1 else 3 := by
  rw [← equilibriaFast_eq]
  exact equilibria_length_fast m hm

/-- Claim C4: for all integers 0 ≤ c1 ≤ c2 ≤ 30, the number of equilibrium
pairs found on `PayoffMatrices c2` is at most the number found on
`PayoffMatrices c1` (the count is non-increasing in c). -/
theorem equilibria_count_antitone (c1 c2 : Int) (h0 : 0 ≤ c1) (h12 : c1 ≤ c2) (h30 : c2 ≤ 30) :
    (equilibria (PayoffMatrices c2).1 (PayoffMatrices c2).2).length ≤
      (equilibria (PayoffMatrices c1).1 (PayoffMatrices c1).2).length := by
  have h02 : 0 ≤ c2 := le_trans h0 h12
  have e1 : ((c1.toNat : Int)) = c1 := Int.toNat_of_nonneg h0
  have e2 : ((c2.toNat : Int)) = c2 := Int.toNat_of_nonneg h02
  have l1 := equilibria_length_at c1.toNat (by omega)
  have l2 := equilibria_length_at c2.toNat (by omega)
  rw [e1] at l1
  rw [e2] at l2
  rw [l1, l2]
  split_ifs <;> omega

/-- Witness for C4 at c1 = 0, c2 = 30. -/
theorem equilibria_count_antitone_witness :
    (0 : Int) ≤ 0 ∧ (0 : Int) ≤ 30 ∧ (30 : Int) ≤ 30 ∧
      (equilibria (PayoffMatrices 30).1 (PayoffMatrices 30).2).length ≤
        (equilibria (PayoffMatrices 0).1 (PayoffMatrices 0).2).length :=
  ⟨by decide, by decide, by decide,
   equilibria_count_antitone 0 30 (by decide) (by decide) (by decide)⟩

/-! ### Checked array model: every access of the sweep is in bounds -/

theorem get?_map_range {α : Type} (f : Nat → α) {i n : Nat} (hi : i < n) :
    ((List.range n).map f).get? i = some (f i) := by
  rw [List.get?_eq_getElem?, List.getElem?_map, List.getElem?_range hi]
  rfl

theorem get2?_map_range (f : Nat → Nat → Int) {i j n m : Nat} (hi : i < n) (hj : j < m) :
    get2? ((List.range n).map fun a => (List.range m).map fun b => f a b) i j = some (f i j) := by
  unfold get2?
  rw [get?_map_range _ hi, Option.some_bind, get?_map_range _ hj]

theorem get2?_payoffL_fst (c : Int) {i j : Nat} (hi : i < 21) (hj : j < 21) :
    get2? (PayoffMatricesL c).1 i j = some ((PayoffMatrices c).1 i j) :=
  get2?_map_range (fun q1 q2 => ((30 - (q1 : Int) - (q2 : Int)) * q1) - c * q1) hi hj

theorem get2?_payoffL_snd (c : Int) {i j : Nat} (hi : i < 21) (hj : j < 21) :
    get2? (PayoffMatricesL c).2 i j = some ((PayoffMatrices c).2 i j) :=
  get2?_map_range (fun q2 q1 => ((30 - (q1 : Int) - (q2 : Int)) * q2) - c * q2) hi hj

theorem mapM_option_of_forall {α β : Type} (g : α → Option β) (f : α → β) :
    ∀ l : List α, (∀ x ∈ l, g x = some (f x)) → l.mapM g = some (l.map f) := by
  intro l
  induction l with
  | nil => intro _; rfl
  | cons a l ih =>
      intro h
      rw [List.mapM_cons, h a (List.mem_cons_self a l),
        ih fun x hx => h x (List.mem_cons_of_mem a hx)]
      rfl

theorem listMax?_eq_some (l : List Int) (h : l ≠ []) : listMax? l = some (listMax l) := by
  cases l with
  | nil => exact absurd rfl h
  | cons a l2 => rfl

theorem payoffL_fst_length (c : Int) : (PayoffMatricesL c).1.length = 21 := by
  simp [PayoffMatricesL]

theorem payoffL_snd_length (c : Int) : (PayoffMatricesL c).2.length = 21 := by
  simp [PayoffMatricesL]

theorem colMax2?_payoffL_fst (c : Int) {j : Nat} (hj : j < 21) :
    colMax2? (PayoffMatricesL c).1 j = some (colMax (PayoffMatrices c).1 j) := by
  unfold colMax2?
  rw [payoffL_fst_length,
    mapM_option_of_forall (fun i => get2? (PayoffMatricesL c).1 i j)
      (fun i => (PayoffMatrices c).1 i j) (List.range 21)
      (fun i hi => get2?_payoffL_fst c (List.mem_range.mp hi) hj),
    Option.some_bind, listMax?_eq_some _ (by simp)]
  rfl

theorem colMax2?_payoffL_snd (c : Int) {j : Nat} (hj : j < 21) :
    colMax2? (PayoffMatricesL c).2 j = some (colMax (PayoffMatrices c).2 j) := by
  unfold colMax2?
  rw [payoffL_snd_length,
    mapM_option_of_forall (fun i => get2? (PayoffMatricesL c).2 i j)
      (fun i => (PayoffMatrices c).2 i j) (List.range 21)
      (fun i hi => get2?_payoffL_snd c (List.mem_range.mp hi) hj),
    Option.some_bind, listMax?_eq_some _ (by simp)]
  rfl

theorem pairCheck?_payoffL (c : Int) {q1 q2 : Nat} (hq1 : q1 < 21) (hq2 : q2 < 21) :
    pairCheck? (PayoffMatricesL c).1 (PayoffMatricesL c).2 q1 q2 =
      some (firm1_best_response (PayoffMatrices c).1 q1 q2 &&
        firm2_best_response (PayoffMatrices c).2 q1 q2) := by
  unfold pairCheck?
  simp only [bind, get2?_payoffL_fst c hq1 hq2, colMax2?_payoffL_fst c hq2,
    get2?_payoffL_snd c hq2 hq1, colMax2?_payoffL_snd c hq1, Option.some_bind]
  rfl

theorem foldlM_filter_option {α : Type} (g : α → Option Bool) (f : α → Bool) :
    ∀ (l : List α), (∀ x ∈ l, g x = some (f x)) → ∀ acc : List α,
      (l.foldlM (fun acc p => do
          let ok ← g p
          pure (if ok then acc ++ [p] else acc)) acc) = some (acc ++ l.filter f) := by
  intro l
  induction l with
  | nil => intro _ acc; simp [List.foldlM_nil]
  | cons a l ih =>
      intro h acc
      have hstep : (do
          let ok ← g a
          pure (if ok then acc ++ [a] else acc) : Option (List α)) =
          some (if f a then acc ++ [a] else acc) := by
        rw [h a (List.mem_cons_self a l)]
        rfl
      rw [List.foldlM_cons, hstep]
      show List.foldlM (fun acc p => do
          let ok ← g p
          pure (if ok then acc ++ [p] else acc)) (if f a then acc ++ [a] else acc) l =
        some (acc ++ (a :: l).filter f)
      rw [ih fun x hx => h x (List.mem_cons_of_mem a hx)]
      by_cases hfa : f a = true
      · simp [hfa, List.filter_cons, List.append_assoc]
      · simp [hfa, List.filter_cons]

/-- Claim C9: for every c in [0,30] the payoff tables are full 21x21 arrays
(so the fill loop's writes are in bounds), and the checked interpretation of
the `NashEquilibrium` sweep, in which every array access returns `none` when
out of bounds, never takes an error branch: it returns `some` of exactly the
equilibrium list of the total embedding. -/
theorem sweep_accesses_in_bounds (c : Int) (_hc0 : 0 ≤ c) (_hc30 : c ≤ 30) :
    (PayoffMatricesL c).1.length = 21 ∧
    (∀ row ∈ (PayoffMatricesL c).1, row.length = 21) ∧
    (PayoffMatricesL c).2.length = 21 ∧
    (∀ row ∈ (PayoffMatricesL c).2, row.length = 21) ∧
    equilibriaChecked (PayoffMatricesL c).1 (PayoffMatricesL c).2 =
      some (equilibria (PayoffMatrices c).1 (PayoffMatrices c).2) := by
  refine ⟨payoffL_fst_length c, ?_, payoffL_snd_length c, ?_, ?_⟩
  · intro row hrow
    rcases List.mem_map.mp hrow with ⟨i, _, rfl⟩
    simp
  · intro row hrow
    rcases List.mem_map.mp hrow with ⟨i, _, rfl⟩
    simp
  · unfold equilibriaChecked equilibria
    rw [payoffL_fst_length]
    have h9 := foldlM_filter_option
      (fun p : Nat × Nat => pairCheck? (PayoffMatricesL c).1 (PayoffMatricesL c).2 p.1 p.2)
      (fun p : Nat × Nat => firm1_best_response (PayoffMatrices c).1 p.1 p.2 &&
        firm2_best_response (PayoffMatrices c).2 p.1 p.2)
      (gridPairs 21)
      (fun p hp =>
        pairCheck?_payoffL c (mem_gridPairs.mp hp).1 (mem_gridPairs.mp hp).2)
      []
    rw [List.nil_append] at h9
    exact h9

/-- Witness for C9 at c = 0. -/
theorem sweep_accesses_in_bounds_witness :
    (0 : Int) ≤ 0 ∧ (0 : Int) ≤ 30 ∧
      ((PayoffMatricesL 0).1.length = 21 ∧
       (∀ row ∈ (PayoffMatricesL 0).1, row.length = 21) ∧
       (PayoffMatricesL 0).2.length = 21 ∧
       (∀ row ∈ (PayoffMatricesL 0).2, row.length = 21) ∧
       equilibriaChecked (PayoffMatricesL 0).1 (PayoffMatricesL 0).2 =
         some (equilibria (PayoffMatrices 0).1 (PayoffMatrices 0).2)) :=
  ⟨by decide, by decide, sweep_accesses_in_bounds 0 (by decide) (by decide)⟩
